import Mathlib

/-!
Verification of the deck-validation pipeline of `simples_script.py`
(repository K3Web).

The source operates on a pandas DataFrame whose rows are card records.
We embed the table as a `List Card` (a DataFrame is an ordered sequence of
rows; every operation used by the source — boolean-mask filtering, column
mapping, summation, groupby — is order-respecting sequence processing).
Machine numbers: quantities and points are small non-negative integers
(`Nat`), configured bounds are Python `int` (`Int`), and the mana value
`CMC` is a Python float that the source only truncates with `int(...)` and
compares with `6`; we embed it as `ℚ`, which is exact for every value the
code manipulates this way.

Column names of the source carry accents (`É_Commander`, `Preço_USD`);
Lean identifiers cannot, so those two fields are spelled `E_Commander`
and `Preco_USD`.
-/

/-- Python's `pat in s` / pandas containment of a *literal* pattern:
`pat` occurs contiguously inside `s` (`List.IsInfix` on the characters).
pandas `Series.str.contains` interprets its pattern as a regular
expression; for the constant patterns `"Creature"` and `"/"` used by the
source, which contain no regex metacharacter, that is exactly literal
substring containment. -/
def strContains (s pat : String) : Bool := decide (pat.data <:+: s.data)

/-- Python `int(x)` on a number: truncation toward zero. -/
def pyTrunc (q : ℚ) : ℤ := if 0 ≤ q then ⌊q⌋ else ⌈q⌉

/-- ASCII lowering of one character, as Python `str.lower()` acts on the
ASCII range (the card data manipulated by the source is ASCII; characters
outside `A`-`Z` are left alone). -/
def charLower (c : Char) : Char := if c.isUpper then Char.ofNat (c.toNat + 32) else c

/-- Python `s.lower()`. -/
def pyLower (s : String) : String := ⟨s.data.map charLower⟩

/-- Python `s.split(sep)` with a one-character separator: splitting the
empty string gives `[""]` (never an empty list), and every separator
occurrence opens a new (possibly empty) piece. -/
def splitChar (sep : Char) : List Char → List (List Char)
  | [] => [[]]
  | c :: cs =>
    let r := splitChar sep cs
    if c = sep then [] :: r
    else
      match r with
      | [] => [[c]]
      | h :: t => (c :: h) :: t

/-- Python `s.split(sep)` on strings, one-character separator. -/
def pySplit (sep : Char) (s : String) : List String := (splitChar sep s.data).map fun l => ⟨l⟩

/-- The whitespace characters Python `str.strip()` removes (ASCII part). -/
def isPySpace (c : Char) : Bool :=
  c == ' ' || c == '\t' || c == '\n' || c == '\r' || c == '\x0b' || c == '\x0c'

/-- Python `s.strip()`: drop leading and trailing whitespace. -/
def pyStrip (s : String) : String :=
  ⟨((s.data.dropWhile isPySpace).reverse.dropWhile isPySpace).reverse⟩

/-- One step of the regex fragment used to model `re.search`: does the
pattern match a prefix of the text?  Every pattern character matches
itself, except `'.'` which matches any character other than a newline
(Python `re` without `DOTALL`).  This models Python regex matching
*exactly* for patterns built from literal characters and `'.'` — the only
metacharacter we ever feed it. -/
def reMatchPrefix : List Char → List Char → Bool
  | [], _ => true
  | _ :: _, [] => false
  | p :: ps, c :: cs => (p == '.' && c != '\n' || p == c) && reMatchPrefix ps cs

/-- `re.search` on the modelled fragment: the pattern matches at some
position of the text (including the position after the last character,
where only the empty pattern matches). -/
def reSearchAux (p : List Char) : List Char → Bool
  | [] => reMatchPrefix p []
  | c :: cs => reMatchPrefix p (c :: cs) || reSearchAux p cs

/-- pandas `Series.str.contains(pat)` with its default regex semantics
(`re.search(pat, s)`), modelled on the literal-plus-dot fragment. -/
def reSearch (pat s : String) : Bool := reSearchAux pat.data s.data

/-- A row of the deck table built by `carregar_deck_moxfield`
(`simples_script.py`, lines 145-189).  `Preco_USD` and `EDHREC_Rank` are
optional in the source (`prices.get("usd")`, `card.get("edhrec_rank")`
may be `None`) and are carried as `Option`, not defaulted. -/
structure Card where
  Deck : String
  Estirpe : String
  Quantidade : Nat
  Nome : String
  Tipo : String
  CMC : ℚ
  Color_Identity : String
  Preco_USD : Option String
  EDHREC_Rank : Option Int
  Oracle_Text : String
  E_Commander : Bool
  deriving DecidableEq, Repr

/-- The configurable part of `Config` (`simples_script.py`, lines 20-35).
`MIN_POINTS`/`MAX_POINTS` default to 40/100 but are set from user input in
`app.py` (`api_validar`) and in `validar_deck_por_cmc_df`.  `CMC_POINTS`
is always the default dictionary (`__post_init__` fills it in whenever the
field is `None`, and no caller ever passes a value), so it is embedded as
the fixed association list `Config.CMC_POINTS` below. -/
structure Config where
  MIN_POINTS : Int := 40
  MAX_POINTS : Int := 100
  deriving DecidableEq, Repr

/-- The fixed `CMC_POINTS` dictionary installed by `Config.__post_init__`:
`{0: 5, 1: 5, 2: 4, 3: 3, 4: 2, 5: 1}`. -/
def Config.CMC_POINTS : List (Int × Nat) := [(0, 5), (1, 5), (2, 4), (3, 3), (4, 2), (5, 1)]

/-- `cmc_to_points` (`simples_script.py`, lines 235-239): truncate the mana
value, look it up in `CMC_POINTS`, and fall back to `0` on a miss. -/
def cmc_to_points (cmc : ℚ) : Nat :=
  match Config.CMC_POINTS.lookup (pyTrunc cmc) with
  | some p => p
  | none => 0

/-- The creature filter shared by `validar_cmc` (line 225) and
`verificar_estirpe_em_criaturas` (line 278): rows whose `Tipo` contains
`"Creature"` and whose commander flag is off.  (`na=False` in the source
handles missing type lines; in the embedding `Tipo` is total.) -/
def df_creatures (df : List Card) : List Card :=
  df.filter fun c => strContains c.Tipo "Creature" && !c.E_Commander

/-- `CMC_Categoria` (line 246): `str(int(x)) if x < 6 else "6+"`. -/
def cmcCategoria (cmc : ℚ) : String :=
  if cmc < 6 then toString (pyTrunc cmc) else "6+"

/-- A row of the CMC summary produced by the `groupby` at lines 249-255. -/
structure ResumoRow where
  CMC : String
  Quantidade : Nat
  Pontos_Totais : Nat
  Cartas_Unicas : Nat
  deriving DecidableEq, Repr

/-- Points of one table row: `Quantidade * Pontos` (line 242). -/
def rowPontosTotais (c : Card) : Nat := c.Quantidade * cmc_to_points c.CMC

/-- The `groupby('CMC_Categoria')` of lines 249-255: pandas emits one
summary row per key present in the data, keys sorted ascending
(lexicographically, the keys being strings), aggregating summed
`Quantidade`, summed `Pontos_Totais` and the number of distinct names. -/
def resumoCmc (dfc : List Card) : List ResumoRow :=
  let keys := ((dfc.map fun c => cmcCategoria c.CMC).dedup).mergeSort (fun a b => a ≤ b)
  keys.map fun k =>
    let grp := dfc.filter fun c => cmcCategoria c.CMC == k
    { CMC := k
      Quantidade := (grp.map fun c => c.Quantidade).sum
      Pontos_Totais := (grp.map rowPontosTotais).sum
      Cartas_Unicas := (grp.map fun c => c.Nome).dedup.length }

/-- `DeckValidator.validar_cmc` (`simples_script.py`, lines 214-261):
filter to non-commander creatures; on an empty filtered set return an
empty summary, total `0.0` and verdict `False`; otherwise return the CMC
summary, the summed per-row points, and the verdict
`MIN_POINTS <= total <= MAX_POINTS`. -/
def validar_cmc (cfg : Config) (df : List Card) : List ResumoRow × Nat × Bool :=
  let dfc := df_creatures df
  if dfc = [] then ([], 0, false)
  else
    let total := (dfc.map rowPontosTotais).sum
    let valido := decide (cfg.MIN_POINTS ≤ (total : Int)) && decide ((total : Int) ≤ cfg.MAX_POINTS)
    (resumoCmc dfc, total, valido)

/-- `DeckValidator.verificar_estirpe_em_criaturas` (`simples_script.py`,
lines 263-303): on an empty table return an empty result; filter to
non-commander creatures (empty result when none); drop rows whose name
contains `"/"`; a row "matches" when the lowercased theme occurs — via
pandas' regex containment — in the lowercased type line or the lowercased
oracle text; return name and type line of the rows that do NOT match, in
table order. -/
def verificar_estirpe_em_criaturas (df : List Card) (termo : String) : List (String × String) :=
  if df = [] then []
  else
    let dfc := df_creatures df
    if dfc = [] then []
    else
      let df_valid := dfc.filter fun c => !strContains c.Nome "/"
      let termo_lower := pyLower termo
      let mask := fun c =>
        reSearch termo_lower (pyLower c.Tipo) || reSearch termo_lower (pyLower c.Oracle_Text)
      (df_valid.filter fun c => !mask c).map fun c => (c.Nome, c.Tipo)

/-- The Theme Filter exactly as the claim words it: keep the rows that are
non-commander creatures, have no `"/"` in the name, and contain the theme
as a case-insensitive *substring* of neither the type line nor the oracle
text; return their name and type line in table order. -/
def themeFilterSpec (df : List Card) (termo : String) : List (String × String) :=
  (df.filter fun c =>
      strContains c.Tipo "Creature" && !c.E_Commander &&
      !strContains c.Nome "/" &&
      !strContains (pyLower c.Tipo) (pyLower termo) &&
      !strContains (pyLower c.Oracle_Text) (pyLower termo)).map
    fun c => (c.Nome, c.Tipo)

/-- A pattern is literal when it carries none of Python's regex
metacharacters; on such patterns `re.search` is substring containment. -/
def regexLiteral (s : String) : Prop :=
  ∀ c ∈ s.data,
    c ∉ (['.', '^', '$', '*', '+', '?', '\x7b', '\x7d', '[', ']', '\\', '|', '(', ')'] : List Char)

instance (s : String) : Decidable (regexLiteral s) := by
  unfold regexLiteral; infer_instance

/-- One object of `results.included` in the combo-finder response; the
source reads `obj.get("id", "")`, so a missing `id` behaves as `""`. -/
structure ComboObj where
  id : Option String
  deriving DecidableEq, Repr

/-- The parsed combo-finder response, reduced to the only part the source
reads: `data.get("results", {}).get("included", [])` (a missing `results`
or `included` is modelled as the empty list). -/
structure ComboResponse where
  included : List ComboObj
  deriving DecidableEq, Repr

/-- The per-object fragment count of lines 352-355: skip objects whose
`id` is missing or empty (`if id_str:`), otherwise count the pieces of
`id_str.split("-")`. -/
def comboSegs (o : ComboObj) : Nat :=
  let s := o.id.getD ""
  if s = "" then 0 else (pySplit '-' s).length

/-- `total_combos` of lines 351-355. -/
def contarCombos (included : List ComboObj) : Nat := (included.map comboSegs).sum

/-- The classification of lines 357-365: `0` fragments or more than `2`
yield `some false` (no combo / too many), `1` or `2` yield `some true`. -/
def classificarCombos (included : List ComboObj) : Option Bool :=
  let total := contarCombos included
  if total = 0 then some false
  else if total ≤ 2 then some true
  else some false

/-- The claim's fragment count: the number of dash-separated segments of
each object's `id` string, with no special case — exactly
`len(id.split("-"))`, which is `1` for an empty `id` (`"".split("-")`
is `[""]`). -/
def comboSegsSpec (o : ComboObj) : Nat := (pySplit '-' (o.id.getD "")).length

/-- The claim's total and classification, with the total taken as the sum
of `comboSegsSpec` over the result objects. -/
def classificarCombosSpec (included : List ComboObj) : Option Bool :=
  let total := (included.map comboSegsSpec).sum
  if total = 0 then some false
  else if total ≤ 2 then some true
  else some false

/-- `DeckValidator.verificar_combo_commanderspellbook` (`simples_script.py`,
lines 305-369).  The network interaction — building the payload, the POST
to the combo-finder service, `response.json()` — is abstracted into the
`resp` argument: `Except.error ()` stands for any transport failure,
non-success status (`raise_for_status`) or unparseable body, all of which
the source's `except Exception` turns into `None`; `Except.ok` carries the
parsed response.  The function itself is total: no branch escapes. -/
def verificar_combo_commanderspellbook (df : List Card)
    (resp : Except Unit ComboResponse) : Option Bool :=
  if df.length < 2 then none
  else
    let cartas := df.map fun c => c.Nome
    match cartas.getLast? with
    | none => none
    | some commander_card =>
      let main_cards := if commander_card = "" then cartas else cartas.dropLast
      if commander_card = "" || decide (main_cards = []) then none
      else
        match resp with
        | Except.error _ => none
        | Except.ok data => classificarCombos data.included

/-- The filesystem as seen by `_carregar_lista_txt_cached`: a map from an
*absolute* path to the lines of the file there (`none` = missing file;
a read error, which the source also turns into an empty set, can be
modelled the same way). -/
abbrev FileSystem : Type := String → Option (List String)

/-- Body of `_carregar_lista_txt_cached` (`simples_script.py`, lines
199-212), without the cache: resolve the path with `os.path.abspath`
(the `ap` argument), return the empty set for a missing file, otherwise
the set of `line.strip().lower()` over the non-blank lines.  The Python
value is a `set`; the embedding keeps a list of the processed lines —
membership and emptiness, the only operations ever applied to it,
coincide. -/
def loadListFile (ap : String → String) (fs : FileSystem) (caminho_txt : String) : List String :=
  match fs (ap caminho_txt) with
  | none => []
  | some lines => (lines.filter fun l => pyStrip l ≠ "").map fun l => pyLower (pyStrip l)

/-- The state of the `functools.lru_cache(maxsize=2)` sitting on
`_carregar_lista_txt_cached` of one `DeckValidator` instance (`self` is
part of the cache key, so each instance caches separately): at most two
entries, most recently used first, keyed by the *argument string*
`caminho_txt` exactly as passed (the `abspath` call happens inside the
cached function and plays no part in the key). -/
abbrev ListaCache : Type := List (String × List String)

/-- Outcome of one call to the cached loader: the returned set, the cache
state after the call, and whether the call actually executed the body
(read the file) or was answered from the cache. -/
structure LoadResult where
  value : List String
  cache : ListaCache
  readFile : Bool
  deriving DecidableEq, Repr

/-- `_carregar_lista_txt_cached` with its `lru_cache(maxsize=2)` made
explicit: a hit returns the stored value and promotes the entry to
most-recently-used without running the body; a miss runs the body,
inserts the result in front and drops the least-recently-used entry
beyond capacity 2. -/
def _carregar_lista_txt_cached (ap : String → String) (fs : FileSystem)
    (cache : ListaCache) (caminho_txt : String) : LoadResult :=
  match cache.lookup caminho_txt with
  | some v => ⟨v, (caminho_txt, v) :: cache.filter fun e => e.1 ≠ caminho_txt, false⟩
  | none =>
    let v := loadListFile ap fs caminho_txt
    ⟨v, ((caminho_txt, v) :: cache).take 2, true⟩

/-- `DeckValidator.verificar_reserved_list` (`simples_script.py`, lines
371-393): load the list through the cached loader; if the set is empty
return an empty table, otherwise the `Nome`/`Quantidade` of every row —
commander included — whose lowercased name is in the set, in table
order. -/
def verificar_reserved_list (ap : String → String) (fs : FileSystem) (cache : ListaCache)
    (df : List Card) (caminho_txt : String) : List (String × Nat) × ListaCache :=
  let r := _carregar_lista_txt_cached ap fs cache caminho_txt
  if r.value = [] then ([], r.cache)
  else
    (((df.filter fun c => r.value.contains (pyLower c.Nome)).map fun c => (c.Nome, c.Quantidade)),
      r.cache)

/-- `DeckValidator.verificar_gc` (`simples_script.py`, lines 395-417):
identical filtering logic against the Game Changer list. -/
def verificar_gc (ap : String → String) (fs : FileSystem) (cache : ListaCache)
    (df : List Card) (caminho_txt : String) : List (String × Nat) × ListaCache :=
  let r := _carregar_lista_txt_cached ap fs cache caminho_txt
  if r.value = [] then ([], r.cache)
  else
    (((df.filter fun c => r.value.contains (pyLower c.Nome)).map fun c => (c.Nome, c.Quantidade)),
      r.cache)

/-- The `prices` object of a card in the deck-service payload. -/
structure Prices where
  usd : Option String
  deriving DecidableEq, Repr

/-- A card object of the deck-service payload; every field is read with a
`get` and may be missing. -/
structure CardJson where
  name : Option String
  type_line : Option String
  cmc : Option ℚ
  color_identity : Option (List String)
  prices : Option Prices
  edhrec_rank : Option Int
  oracle_text : Option String
  deriving DecidableEq, Repr

/-- One `mainboard` entry: `entry.get("quantity", 1)` and
`entry.get("card", {})`. -/
structure MainboardEntry where
  quantity : Option Nat
  card : Option CardJson
  deriving DecidableEq, Repr

/-- The deck-service payload, reduced to what lines 145-189 read: the
`mainboard` values (a JSON object whose values the source iterates in
order) and the optional `main` commander object.  The source guards the
commander with `if commander:`, so an absent *or falsy* (empty-object)
`main` is modelled as `none`. -/
structure DeckPayload where
  mainboard : List MainboardEntry
  main : Option CardJson
  deriving DecidableEq, Repr

/-- The all-fields-missing card object, the meaning of
`entry.get("card", {})` when `card` is absent. -/
def CardJson.empty : CardJson := ⟨none, none, none, none, none, none, none⟩

/-- One mainboard row of lines 148-164: defaults applied per field
(`name`/`type_line`/`oracle_text` default `""`, `cmc` default `0`,
`color_identity` default `[]` then comma-joined), price and rank carried
as they are, commander flag off. -/
def rowFromEntry (deck_name estirpe : String) (e : MainboardEntry) : Card :=
  let card := e.card.getD CardJson.empty
  { Deck := deck_name
    Estirpe := estirpe
    Quantidade := e.quantity.getD 1
    Nome := card.name.getD ""
    Tipo := card.type_line.getD ""
    CMC := card.cmc.getD 0
    Color_Identity := String.intercalate "," (card.color_identity.getD [])
    Preco_USD := (card.prices.getD ⟨none⟩).usd
    EDHREC_Rank := card.edhrec_rank
    Oracle_Text := card.oracle_text.getD ""
    E_Commander := false }

/-- The commander row of lines 168-182: same field defaults, quantity
fixed at `1`, commander flag on. -/
def rowFromCommander (deck_name estirpe : String) (c : CardJson) : Card :=
  { Deck := deck_name
    Estirpe := estirpe
    Quantidade := 1
    Nome := c.name.getD ""
    Tipo := c.type_line.getD ""
    CMC := c.cmc.getD 0
    Color_Identity := String.intercalate "," (c.color_identity.getD [])
    Preco_USD := (c.prices.getD ⟨none⟩).usd
    EDHREC_Rank := c.edhrec_rank
    Oracle_Text := c.oracle_text.getD ""
    E_Commander := true }

/-- The normalization step of `carregar_deck_moxfield` (`simples_script.py`,
lines 145-189), after the payload has been fetched and parsed: one row per
mainboard entry, then the commander row when a commander exists; raises
`ValueError("Nenhuma carta encontrada no deck")` — the spec's `EmptyDeck`
— when no row was produced. -/
def carregar_deck_linhas (deck_name estirpe : String) (data : DeckPayload) :
    Except String (List Card) :=
  let linhas := data.mainboard.map (rowFromEntry deck_name estirpe) ++
    (match data.main with
     | some c => [rowFromCommander deck_name estirpe c]
     | none => [])
  if linhas = [] then Except.error "Nenhuma carta encontrada no deck"
  else Except.ok linhas

/-- A character `urllib.parse` accepts inside a URL scheme (after the
leading letter): letters, digits, `+`, `-`, `.`. -/
def isSchemeChar (c : Char) : Bool := c.isAlphanum || c == '+' || c == '-' || c == '.'

/-- `urllib.parse` scheme stripping: when the first `:` sits at position
`i > 0`, the leading character is an ASCII letter and everything before
the `:` is a scheme character, drop `scheme:` (the lowercased scheme
itself is never used by the source). -/
def stripScheme (cs : List Char) : List Char :=
  match cs.findIdx? fun c => c == ':' with
  | none => cs
  | some i =>
    let cand := cs.take i
    if 0 < i && (cand.headD ' ').isAlpha && cand.all isSchemeChar then cs.drop (i + 1)
    else cs

/-- `_splitparams` of `urllib.parse.urlparse`: cut the path at the first
`;` at or after the last `/` (or anywhere when there is no `/`). -/
def dropParams (cs : List Char) : List Char :=
  if cs.contains '/' then
    let tailSeg := (cs.reverse.takeWhile fun c => c ≠ '/').reverse
    let stem := cs.take (cs.length - tailSeg.length)
    match tailSeg.findIdx? fun c => c == ';' with
    | some i => stem ++ tailSeg.take i
    | none => cs
  else
    match cs.findIdx? fun c => c == ';' with
    | some i => cs.take i
    | none => cs

/-- `urllib.parse.urlparse(url)`, reduced to the two components the source
reads (`netloc`, `path`): drop the fragment after `#`, strip a leading
`scheme:`, take the netloc between `//` and the next `/`, `?` or `#`,
drop the query after `?`, and split params off the path. -/
def urlparseNetlocPath (url : String) : String × String :=
  let cs := url.data.takeWhile fun c => c ≠ '#'
  let cs := stripScheme cs
  let (netloc, rest) :=
    if cs.take 2 = ['/', '/'] then
      ((cs.drop 2).takeWhile fun c => !(c == '/' || c == '?' || c == '#'),
        (cs.drop 2).dropWhile fun c => !(c == '/' || c == '?' || c == '#'))
    else ([], cs)
  let path := dropParams (rest.takeWhile fun c => c ≠ '?')
  (netloc.asString, path.asString)

/-- Python `s.strip('/')`: drop leading and trailing `/` characters. -/
def stripSlashes (s : String) : String :=
  (((s.data.dropWhile fun c => c == '/').reverse.dropWhile fun c => c == '/').reverse).asString

/-- The deck-reference validation of `carregar_deck_moxfield`
(`simples_script.py`, lines 124-134): `urlparse` the reference and raise
`ValueError("URL inválida ou malformada")` — the spec's `InvalidInput` —
when netloc or path is empty; split the `/`-stripped path on `/` and
raise when the part list is empty (`str.split` never returns an empty
list, so that guard cannot fire); the deck identifier is the last part. -/
def extractDeckId (deck_url : String) : Except String String :=
  let parsed := urlparseNetlocPath deck_url
  if parsed.1 = "" || parsed.2 = "" then Except.error "URL inválida ou malformada"
  else
    let path_parts := pySplit '/' (stripSlashes parsed.2)
    if h : path_parts = [] then Except.error "URL não contém ID do deck"
    else Except.ok (path_parts.getLast h)

/-- A filesystem for exercising the list cache: every absolute path holds
a one-line file `x`. -/
def c9fs : FileSystem := fun _ => some ["x"]

/-- Load `a`, then `b`, then `c`, then `a` again through the cached
loader, starting from an empty cache and with `abspath` the identity. -/
def c9r1 : LoadResult := _carregar_lista_txt_cached id c9fs [] "a"

def c9r2 : LoadResult := _carregar_lista_txt_cached id c9fs c9r1.cache "b"

def c9r3 : LoadResult := _carregar_lista_txt_cached id c9fs c9r2.cache "c"

def c9r4 : LoadResult := _carregar_lista_txt_cached id c9fs c9r3.cache "a"

/-- The fixed per-card lookup exactly as the claim words it: truncated
mana value `0 → 5, 1 → 5, 2 → 4, 3 → 3, 4 → 2, 5 → 1`, and `0` for any
other value (mana value `6` or more; mana values are non-negative in the
data model). -/
def pointsSpec (t : ℤ) : Nat :=
  if t = 0 then 5
  else if t = 1 then 5
  else if t = 2 then 4
  else if t = 3 then 3
  else if t = 4 then 2
  else if t = 5 then 1
  else 0

theorem cmc_to_points_eq_pointsSpec (cmc : ℚ) :
    cmc_to_points cmc = pointsSpec (pyTrunc cmc) := by
  unfold cmc_to_points
  generalize pyTrunc cmc = t
  unfold pointsSpec
  split_ifs with h0 h1 h2 h3 h4 h5
  · subst h0; rfl
  · subst h1; rfl
  · subst h2; rfl
  · subst h3; rfl
  · subst h4; rfl
  · subst h5; rfl
  · simp [Config.CMC_POINTS, List.lookup, beq_eq_false_iff_ne.mpr h0,
      beq_eq_false_iff_ne.mpr h1, beq_eq_false_iff_ne.mpr h2, beq_eq_false_iff_ne.mpr h3,
      beq_eq_false_iff_ne.mpr h4, beq_eq_false_iff_ne.mpr h5]

theorem validar_cmc_total (cfg : Config) (df : List Card) :
    (validar_cmc cfg df).2.1 = ((df_creatures df).map rowPontosTotais).sum := by
  unfold validar_cmc
  by_cases h : df_creatures df = [] <;> simp [h]

/-- C1: for every card table, the deck total of `validar_cmc` is the sum,
over exactly the rows whose type line contains the (case-sensitive)
substring `"Creature"` and whose commander flag is false, of the fixed
lookup of the truncated mana value times the row quantity. -/
theorem C1_scoring_fixed_lookup (cfg : Config) (df : List Card) :
    (validar_cmc cfg df).2.1 =
      ((df.filter fun c => strContains c.Tipo "Creature" && !c.E_Commander).map
        fun c => pointsSpec (pyTrunc c.CMC) * c.Quantidade).sum := by
  rw [validar_cmc_total]
  unfold df_creatures
  refine congrArg List.sum (List.map_congr_left fun c _ => ?_)
  rw [rowPontosTotais, cmc_to_points_eq_pointsSpec, Nat.mul_comm]

/-- C2 fails as stated: with a configured range of `[0, 100]` and a table
with no non-commander creature rows, the total `0` lies inside the
inclusive configured range, yet the verdict is `false`. -/
theorem C2_legality_counterexample :
    (validar_cmc ⟨0, 100⟩ []).2.2 = false ∧
      (Config.mk 0 100).MIN_POINTS ≤ ((validar_cmc ⟨0, 100⟩ []).2.1 : Int) ∧
      ((validar_cmc ⟨0, 100⟩ []).2.1 : Int) ≤ (Config.mk 0 100).MAX_POINTS := by
  refine ⟨rfl, by norm_num [validar_cmc, df_creatures], by norm_num [validar_cmc, df_creatures]⟩

/-- C2 amended: the verdict is `true` iff the filtered set of
non-commander creature rows is nonempty AND the total lies in the
configured inclusive range; an empty filtered set always yields the empty
summary, total `0` and verdict `false` (with the default minimum of 40
this coincides with the claim's plain range check, since an empty set's
total `0` is below the minimum). -/
theorem C2_legality_amended (cfg : Config) (df : List Card) :
    ((validar_cmc cfg df).2.2 = true ↔
      df_creatures df ≠ [] ∧
        cfg.MIN_POINTS ≤ ((validar_cmc cfg df).2.1 : Int) ∧
        ((validar_cmc cfg df).2.1 : Int) ≤ cfg.MAX_POINTS) ∧
    (df_creatures df = [] → validar_cmc cfg df = ([], 0, false)) := by
  unfold validar_cmc
  by_cases h : df_creatures df = [] <;> simp [h]

theorem C2_legality_amended_witness :
    validar_cmc ⟨40, 100⟩ [] = ([], 0, false) :=
  (C2_legality_amended ⟨40, 100⟩ []).2 rfl

/-- C8: the deck total of `validar_cmc` is invariant under permutations of
the table and under merging two rows that agree on every field except
`Quantidade` into one row carrying the summed quantity (read right to
left: splitting). -/
theorem C8_total_invariance (cfg : Config) :
    (∀ df₁ df₂ : List Card, df₁.Perm df₂ →
        (validar_cmc cfg df₁).2.1 = (validar_cmc cfg df₂).2.1) ∧
    (∀ (pre post : List Card) (r : Card) (q₁ q₂ : Nat),
        (validar_cmc cfg
            (pre ++ { r with Quantidade := q₁ } :: { r with Quantidade := q₂ } :: post)).2.1 =
        (validar_cmc cfg (pre ++ { r with Quantidade := q₁ + q₂ } :: post)).2.1) := by
  constructor
  · intro df₁ df₂ h
    rw [validar_cmc_total, validar_cmc_total]
    exact ((h.filter _).map _).sum_eq
  · intro pre post r q₁ q₂
    rw [validar_cmc_total, validar_cmc_total]
    unfold df_creatures
    by_cases hp : (strContains r.Tipo "Creature" && !r.E_Commander) = true <;>
      simp [List.filter_append, List.map_append, List.sum_append, hp, rowPontosTotais,
        Nat.add_mul, Nat.add_assoc]

theorem C8_total_invariance_witness :
    (validar_cmc ⟨40, 100⟩
        [⟨"d", "e", 1, "a", "Creature", 2, "", none, none, "", false⟩,
         ⟨"d", "e", 2, "b", "Creature", 3, "", none, none, "", false⟩]).2.1 =
      (validar_cmc ⟨40, 100⟩
        [⟨"d", "e", 2, "b", "Creature", 3, "", none, none, "", false⟩,
         ⟨"d", "e", 1, "a", "Creature", 2, "", none, none, "", false⟩]).2.1 :=
  (C8_total_invariance ⟨40, 100⟩).1 _ _
    (List.Perm.swap (⟨"d", "e", 2, "b", "Creature", 3, "", none, none, "", false⟩ : Card)
      (⟨"d", "e", 1, "a", "Creature", 2, "", none, none, "", false⟩ : Card) [])

theorem regexLiteral_no_dot {s : String} (h : regexLiteral s) : ∀ c ∈ s.data, c ≠ '.' := by
  intro c hc hdot
  exact h c hc (by simp [hdot])

theorem reMatchPrefix_eq_isPrefix : ∀ (p s : List Char), (∀ c ∈ p, c ≠ '.') →
    (reMatchPrefix p s = true ↔ p <+: s)
  | [], s, _ => iff_of_true rfl List.nil_prefix
  | pc :: ps, [], _ => by
    rw [show reMatchPrefix (pc :: ps) [] = false from rfl]
    simp [List.prefix_nil]
  | pc :: ps, c :: cs, hp => by
    have hpc : pc ≠ '.' := hp pc (by simp)
    have ih := reMatchPrefix_eq_isPrefix ps cs (fun x hx => hp x (by simp [hx]))
    rw [show reMatchPrefix (pc :: ps) (c :: cs) =
        ((pc == '.' && c != '\n' || pc == c) && reMatchPrefix ps cs) from rfl]
    simp [List.cons_prefix_cons, beq_eq_false_iff_ne.mpr hpc, ih, beq_iff_eq]

theorem reSearchAux_iff : ∀ (p s : List Char), (∀ c ∈ p, c ≠ '.') →
    (reSearchAux p s = true ↔ ∃ t, t <:+ s ∧ p <+: t)
  | p, [], hp => by
    rw [show reSearchAux p [] = reMatchPrefix p [] from rfl]
    simp [reMatchPrefix_eq_isPrefix p [] hp, List.suffix_nil]
  | p, c :: cs, hp => by
    have ih := reSearchAux_iff p cs hp
    rw [show reSearchAux p (c :: cs) = (reMatchPrefix p (c :: cs) || reSearchAux p cs) from rfl]
    simp only [Bool.or_eq_true, reMatchPrefix_eq_isPrefix p (c :: cs) hp, ih]
    constructor
    · rintro (h | ⟨t, ht, hpt⟩)
      · exact ⟨c :: cs, List.suffix_rfl, h⟩
      · exact ⟨t, ht.trans (List.suffix_cons c cs), hpt⟩
    · rintro ⟨t, ht, hpt⟩
      rcases List.suffix_cons_iff.mp ht with h | h
      · exact Or.inl (h ▸ hpt)
      · exact Or.inr ⟨t, h, hpt⟩

theorem reSearch_eq_contains (pat s : String) (hp : ∀ c ∈ pat.data, c ≠ '.') :
    reSearch pat s = strContains s pat := by
  have h1 : reSearchAux pat.data s.data = true ↔ pat.data <:+: s.data := by
    rw [reSearchAux_iff pat.data s.data hp, List.infix_iff_prefix_suffix]
    constructor
    · rintro ⟨t, hts, hpt⟩; exact ⟨t, hpt, hts⟩
    · rintro ⟨t, hpt, hts⟩; exact ⟨t, hts, hpt⟩
  unfold reSearch strContains
  rcases hb : reSearchAux pat.data s.data with _ | _
  · symm
    rw [decide_eq_false_iff_not]
    intro hin
    have := h1.mpr hin
    rw [hb] at this
    exact Bool.false_ne_true this
  · symm
    rw [decide_eq_true_eq]
    exact h1.mp hb

/-- C3 fails as stated: the source hands the theme to pandas'
`str.contains`, which reads it as a regular expression.  For the theme
`"."` the row below matches the regex (every non-empty string does), so
the code returns no mismatches, while the claim's case-insensitive
*substring* reading requires the row — whose type line and oracle text
contain no literal dot — to be returned. -/
theorem C3_theme_filter_counterexample :
    verificar_estirpe_em_criaturas
        [⟨"d", "e", 1, "Goblin Guide", "Creature — Goblin", 1, "", none, none, "", false⟩]
        "." = [] ∧
      themeFilterSpec
        [⟨"d", "e", 1, "Goblin Guide", "Creature — Goblin", 1, "", none, none, "", false⟩]
        "." = [("Goblin Guide", "Creature — Goblin")] := by
  exact ⟨rfl, rfl⟩

/-- C3 amended: for every theme whose lowercase form contains no regex
metacharacter (so that the regex containment the source performs is plain
substring containment — every ordinary tribe word qualifies), the Theme
Filter returns exactly the rows that are non-commander creatures, carry
no `"/"` in the name, and contain the theme as a case-insensitive
substring of neither the type line nor the oracle text; name and type
line only, in table order, with empty input or an empty filtered set
giving an empty list. -/
theorem C3_theme_filter_amended (df : List Card) (termo : String)
    (h : regexLiteral (pyLower termo)) :
    verificar_estirpe_em_criaturas df termo = themeFilterSpec df termo := by
  have hdot := regexLiteral_no_dot h
  unfold verificar_estirpe_em_criaturas themeFilterSpec
  by_cases hdf : df = []
  · subst hdf; simp
  · rw [if_neg hdf]
    by_cases hc : df_creatures df = []
    · rw [if_pos hc]
      have h0 := List.filter_eq_nil_iff.mp (by exact hc)
      have hnil : (df.filter fun c =>
          strContains c.Tipo "Creature" && !c.E_Commander &&
          !strContains c.Nome "/" &&
          !strContains (pyLower c.Tipo) (pyLower termo) &&
          !strContains (pyLower c.Oracle_Text) (pyLower termo)) = [] := by
        rw [List.filter_eq_nil_iff]
        intro a ha hconj
        apply h0 a ha
        simp only [Bool.and_eq_true] at hconj ⊢
        tauto
      rw [hnil, List.map_nil]
    · rw [if_neg hc]
      unfold df_creatures
      simp only [List.filter_filter]
      refine congrArg (List.map _) (List.filter_congr fun c _ => ?_)
      rw [reSearch_eq_contains (pyLower termo) (pyLower c.Tipo) hdot,
        reSearch_eq_contains (pyLower termo) (pyLower c.Oracle_Text) hdot]
      cases strContains c.Tipo "Creature" <;> cases c.E_Commander <;>
        cases strContains c.Nome "/" <;>
        cases strContains (pyLower c.Tipo) (pyLower termo) <;>
        cases strContains (pyLower c.Oracle_Text) (pyLower termo) <;> rfl

theorem C3_theme_filter_amended_witness :
    verificar_estirpe_em_criaturas
        [⟨"d", "e", 1, "Goblin Guide", "Creature — Goblin", 1, "", none, none, "", false⟩]
        "Elf" =
      themeFilterSpec
        [⟨"d", "e", 1, "Goblin Guide", "Creature — Goblin", 1, "", none, none, "", false⟩]
        "Elf" :=
  C3_theme_filter_amended _ "Elf" (by decide)

/-- C4 fails as stated: a result object whose `id` string is empty (or
missing) is skipped by the source (`if id_str:`), while the claim's sum of
"the number of dash-separated segments in each object's id string" counts
`1` for it (`"".split("-")` is `[""]`).  On the response holding exactly
one such object the code counts `0` fragments and classifies `NotFound`
(`some false`), while the claim's total is `1`, in the `Found` range. -/
theorem C4_combo_counterexample :
    classificarCombos [⟨some ""⟩] = some false ∧
      contarCombos [⟨some ""⟩] = 0 ∧
      classificarCombosSpec [⟨some ""⟩] = some true ∧
      (List.map comboSegsSpec [⟨some ""⟩]).sum = 1 :=
  ⟨rfl, rfl, rfl, rfl⟩

/-- C4 amended: the total is the sum, over the result objects whose `id`
string is non-empty, of the number of dash-separated segments of the
`id` (objects with an empty or missing `id` contribute nothing); the
classification is `NotFound` for total `0`, `Found` for total `1` or `2`,
and `NotFound` for totals above `2`. -/
theorem C4_combo_amended (included : List ComboObj) :
    contarCombos included =
      ((included.filter fun o => o.id.getD "" ≠ "").map comboSegsSpec).sum ∧
    (contarCombos included = 0 → classificarCombos included = some false) ∧
    (1 ≤ contarCombos included → contarCombos included ≤ 2 →
      classificarCombos included = some true) ∧
    (2 < contarCombos included → classificarCombos included = some false) := by
  refine ⟨?_, fun h => by simp [classificarCombos, h], fun h1 h2 => ?_, fun h => ?_⟩
  · induction included with
    | nil => rfl
    | cons o rest ih =>
      simp only [contarCombos, List.map_cons, List.sum_cons, List.filter_cons] at ih ⊢
      by_cases h : o.id.getD "" = ""
      · simp [comboSegs, h, ih]
      · simp [comboSegs, comboSegsSpec, h, ih]
  · simp only [classificarCombos]
    rw [if_neg (by omega), if_pos h2]
  · simp only [classificarCombos]
    rw [if_neg (by omega), if_neg (by omega)]

theorem C4_combo_amended_witness :
    classificarCombos [⟨some "a-b"⟩] = some true :=
  (C4_combo_amended [⟨some "a-b"⟩]).2.2.1 (by decide) (by decide)

/-- C5: the Combo Oracle is a total function of the table and of the
abstracted network outcome (so no exception ever reaches its caller —
the source wraps the entire network interaction in `except Exception`),
and it answers `Unknown` (`none`) whenever the table has fewer than 2
rows, whenever the commander name the source requires — the *last* row's
name — is empty, and whenever the network outcome is a transport failure,
non-success status or unparseable body. -/
theorem C5_combo_unknown (df : List Card) (resp : Except Unit ComboResponse) :
    (df.length < 2 → verificar_combo_commanderspellbook df resp = none) ∧
    ((df.map fun c => c.Nome).getLast? = some "" →
      verificar_combo_commanderspellbook df resp = none) ∧
    (resp = Except.error () → verificar_combo_commanderspellbook df resp = none) := by
  unfold verificar_combo_commanderspellbook
  refine ⟨fun h => by rw [if_pos h], fun h => ?_, fun h => ?_⟩
  · by_cases hl : df.length < 2
    · rw [if_pos hl]
    · rw [if_neg hl]
      simp only [h]
      simp
  · by_cases hl : df.length < 2
    · rw [if_pos hl]
    · rw [if_neg hl]
      subst h
      simp only []
      split
      · rfl
      · split <;> exact ite_self none

theorem C5_combo_unknown_witness :
    verificar_combo_commanderspellbook [] (Except.ok ⟨[]⟩) = none :=
  (C5_combo_unknown [] (Except.ok ⟨[]⟩)).1 (by decide)

/-- C6: normalization emits one row per mainboard entry with the commander
flag off, then exactly one commander row (quantity 1, flag on) iff a
commander entry exists; the optional price and rank fields are carried as
they are in the payload (absent stays absent), the colour identity is the
comma-join of the payload list in order (empty string when absent), and
the result is the `EmptyDeck` error exactly when no row was produced,
i.e. when the mainboard is empty and no commander exists. -/
theorem C6_deck_normalization (dn es : String) (p : DeckPayload) :
    ((∃ e, carregar_deck_linhas dn es p = Except.error e) ↔
      p.mainboard = [] ∧ p.main = none) ∧
    (∀ l, carregar_deck_linhas dn es p = Except.ok l →
      l = p.mainboard.map (rowFromEntry dn es) ++
        (match p.main with
         | some c => [rowFromCommander dn es c]
         | none => []) ∧
      (∀ e ∈ p.mainboard, (rowFromEntry dn es e).E_Commander = false ∧
        (rowFromEntry dn es e).Quantidade = e.quantity.getD 1 ∧
        (rowFromEntry dn es e).Preco_USD = ((e.card.getD CardJson.empty).prices.getD ⟨none⟩).usd ∧
        (rowFromEntry dn es e).EDHREC_Rank = (e.card.getD CardJson.empty).edhrec_rank ∧
        (rowFromEntry dn es e).Color_Identity =
          String.intercalate "," ((e.card.getD CardJson.empty).color_identity.getD [])) ∧
      (∀ c, p.main = some c →
        (rowFromCommander dn es c).Quantidade = 1 ∧
        (rowFromCommander dn es c).E_Commander = true ∧
        (rowFromCommander dn es c).Preco_USD = (c.prices.getD ⟨none⟩).usd ∧
        (rowFromCommander dn es c).EDHREC_Rank = c.edhrec_rank ∧
        (rowFromCommander dn es c).Color_Identity =
          String.intercalate "," (c.color_identity.getD []))) := by
  set L := p.mainboard.map (rowFromEntry dn es) ++
    (match p.main with
     | some c => [rowFromCommander dn es c]
     | none => []) with hL
  have hlin : L = [] ↔ p.mainboard = [] ∧ p.main = none := by
    rw [hL]
    cases p.main <;> simp
  have hdef : carregar_deck_linhas dn es p =
      if L = [] then Except.error "Nenhuma carta encontrada no deck" else Except.ok L := rfl
  rw [hdef]
  by_cases h : L = []
  · rw [if_pos h]
    refine ⟨⟨fun _ => hlin.mp h, fun _ => ⟨_, rfl⟩⟩, fun l hl => ?_⟩
    exact absurd hl (by simp)
  · rw [if_neg h]
    constructor
    · constructor
      · rintro ⟨e, he⟩
        exact absurd he (by simp)
      · intro hme
        exact absurd (hlin.mpr hme) h
    · intro l hl
      have hl2 : L = l := by
        injection hl
      exact ⟨hl2.symm, fun e _ => ⟨rfl, rfl, rfl, rfl, rfl⟩, fun c _ => ⟨rfl, rfl, rfl, rfl, rfl⟩⟩

theorem C6_deck_normalization_witness :
    ∃ e, carregar_deck_linhas "d" "t" ⟨[], none⟩ = Except.error e :=
  (C6_deck_normalization "d" "t" ⟨[], none⟩).1.mpr ⟨rfl, rfl⟩

/-- C7: the claim promises `InvalidInput` for an empty or unparseable
reference and otherwise a *non-empty* path segment as the deck id.  The
empty reference is indeed rejected, but the reference
`"https://www.moxfield.com/"` — netloc and path both non-empty, path
consisting only of `/` — is accepted, and the deck id used is the empty
string: the guard `if not path_parts:` at line 131 can never fire because
Python's `str.split` always returns a non-empty list, so the intended
`"URL não contém ID do deck"` error is unreachable. -/
theorem C7_deck_id_empty_segment :
    extractDeckId "" = Except.error "URL inválida ou malformada" ∧
      extractDeckId "https://www.moxfield.com/" = Except.ok "" :=
  ⟨rfl, rfl⟩

/-- C9 fails as stated: the cache is a `functools.lru_cache(maxsize=2)`.
After a first successful load of path `a`, loading two other distinct
paths evicts `a`, and the next load of `a` — same path string, hence the
same file — reads the file again instead of answering from the cache. -/
theorem C9_cache_counterexample : c9r1.readFile = true ∧ c9r4.readFile = true :=
  ⟨rfl, rfl⟩

/-- C9 amended: the loader caches by the exact path string passed (per
validator instance), in an LRU cache of capacity two.  While an entry for
the path is still cached, a later load with the same string returns the
cached set without running the body (no file read); after each call the
path is cached with the returned value; a load of a path not in the cache
reads the file. -/
theorem C9_cache_amended (ap : String → String) (fs : FileSystem)
    (cache : ListaCache) (p : String) :
    (∀ v, cache.lookup p = some v →
      (_carregar_lista_txt_cached ap fs cache p).value = v ∧
      (_carregar_lista_txt_cached ap fs cache p).readFile = false) ∧
    ((_carregar_lista_txt_cached ap fs cache p).cache.lookup p =
      some (_carregar_lista_txt_cached ap fs cache p).value) ∧
    (cache.lookup p = none →
      (_carregar_lista_txt_cached ap fs cache p).readFile = true ∧
      (_carregar_lista_txt_cached ap fs cache p).value = loadListFile ap fs p) := by
  unfold _carregar_lista_txt_cached
  cases hl : cache.lookup p with
  | some w =>
    refine ⟨fun v hv => ?_, ?_, fun hn => Option.noConfusion hn⟩
    · injection hv with hv
      exact ⟨hv, rfl⟩
    · simp [List.lookup]
  | none =>
    refine ⟨fun v hv => Option.noConfusion hv, ?_, fun _ => ⟨rfl, rfl⟩⟩
    simp [List.lookup]

theorem C9_cache_amended_witness :
    (_carregar_lista_txt_cached id (fun _ => none) [("a", ["x"])] "a").value = ["x"] ∧
      (_carregar_lista_txt_cached id (fun _ => none) [("a", ["x"])] "a").readFile = false :=
  (C9_cache_amended id (fun _ => none) [("a", ["x"])] "a").1 ["x"] rfl

/-- C10: both curated-list matchers scan every row of the table — the
commander row included: the hits are exactly the rows whose lowercased
name is in the loaded set, projected to name and quantity in table order,
and a commander row whose lowercased name is in the set is among the
hits.  By contrast the creature filter shared by the Scoring Engine and
the Theme Filter never contains a commander row. -/
theorem C10_list_matchers_include_commander (ap : String → String) (fs : FileSystem)
    (cache : ListaCache) (df : List Card) (caminho : String) :
    ((verificar_reserved_list ap fs cache df caminho).1 =
      (df.filter fun c =>
        (_carregar_lista_txt_cached ap fs cache caminho).value.contains (pyLower c.Nome)).map
        fun c => (c.Nome, c.Quantidade)) ∧
    ((verificar_gc ap fs cache df caminho).1 =
      (df.filter fun c =>
        (_carregar_lista_txt_cached ap fs cache caminho).value.contains (pyLower c.Nome)).map
        fun c => (c.Nome, c.Quantidade)) ∧
    (∀ c ∈ df, c.E_Commander = true →
      (_carregar_lista_txt_cached ap fs cache caminho).value.contains (pyLower c.Nome) = true →
      (c.Nome, c.Quantidade) ∈ (verificar_reserved_list ap fs cache df caminho).1 ∧
      (c.Nome, c.Quantidade) ∈ (verificar_gc ap fs cache df caminho).1) ∧
    (∀ c ∈ df, c.E_Commander = true → c ∉ df_creatures df) := by
  have hits_eq : (verificar_reserved_list ap fs cache df caminho).1 =
      (df.filter fun c =>
        (_carregar_lista_txt_cached ap fs cache caminho).value.contains (pyLower c.Nome)).map
        fun c => (c.Nome, c.Quantidade) := by
    unfold verificar_reserved_list
    by_cases h : (_carregar_lista_txt_cached ap fs cache caminho).value = [] <;> simp [h]
  have hits_eq_gc : (verificar_gc ap fs cache df caminho).1 =
      (df.filter fun c =>
        (_carregar_lista_txt_cached ap fs cache caminho).value.contains (pyLower c.Nome)).map
        fun c => (c.Nome, c.Quantidade) := by
    unfold verificar_gc
    by_cases h : (_carregar_lista_txt_cached ap fs cache caminho).value = [] <;> simp [h]
  refine ⟨hits_eq, hits_eq_gc, fun c hc _ hin => ?_, fun c _ hcmd hmem => ?_⟩
  · rw [hits_eq, hits_eq_gc]
    constructor <;> exact List.mem_map_of_mem _ (List.mem_filter.mpr ⟨hc, hin⟩)
  · rw [df_creatures, List.mem_filter] at hmem
    rw [hcmd] at hmem
    simpa using hmem.2

theorem C10_list_matchers_include_commander_witness :
    ("Black Lotus", 1) ∈
      (verificar_reserved_list id (fun _ => some ["Black Lotus"]) []
        [⟨"d", "e", 1, "Black Lotus", "Artifact", 0, "", none, none, "", true⟩] "r.txt").1 :=
  ((C10_list_matchers_include_commander id (fun _ => some ["Black Lotus"]) []
      [⟨"d", "e", 1, "Black Lotus", "Artifact", 0, "", none, none, "", true⟩] "r.txt").2.2.1
    ⟨"d", "e", 1, "Black Lotus", "Artifact", 0, "", none, none, "", true⟩
    (List.mem_singleton.mpr rfl) rfl rfl).1
